import Mathlib

/-!
Shallow embedding of the fuzzflow coordination engine
(`src/fuzzflow/core/task.py`, `core/scheduler.py`, `core/manager.py`,
`core/process.py`, `monitoring/metrics.py`, `monitoring/resources.py`,
`monitoring/constraints.py`, `orchestrator.py`) and proofs about it.

Conventions of the embedding:
* Python `float` arithmetic is modelled with `ℚ` (all quantities involved
  stay well inside exactly-representable ranges in the code paths studied);
* `datetime` values are modelled as rational timestamps (seconds);
* `uuid.UUID` task ids are modelled as `Nat`;
* Python `dict` fields are modelled as association lists;
* wall-clock side effects (`datetime.now()`) are passed in explicitly as a
  `now : ℚ` argument wherever the code reads the clock;
* OS interactions (spawn success, exit codes delivered by `psutil.wait`)
  are passed in explicitly as arguments.
-/

namespace Fuzzflow

/-- `task.py` `TaskStatus`: task lifecycle states. -/
inductive TaskStatus
  | PENDING
  | SCHEDULED
  | RUNNING
  | PAUSED
  | COMPLETED
  | FAILED
  | CANCELLED
deriving DecidableEq, Repr

/-- `task.py` `TaskPriority`: priority levels (the enum's numeric values). -/
inductive TaskPriority
  | CRITICAL
  | HIGH
  | NORMAL
  | LOW
  | IDLE
deriving DecidableEq, Repr

/-- Numeric value of each `TaskPriority` member, as in `task.py`. -/
def TaskPriority.value : TaskPriority → Int
  | .CRITICAL => 100
  | .HIGH => 75
  | .NORMAL => 50
  | .LOW => 25
  | .IDLE => 0

/-- `task.py` `FuzzTask`, restricted to the fields the verified operations
read: id, priority, status, resource requirements, creation time and the
declared dependency list.  `started_at`/`completed_at` bookkeeping (pure
wall-clock stamping in `update_status`) is not modelled. -/
structure FuzzTask where
  id : Nat
  priority : TaskPriority := .NORMAL
  status : TaskStatus := .PENDING
  memory_limit_mb : Option Int := none
  cpu_cores : Option Int := none
  created_at : ℚ := 0
  dependencies : List Nat := []
deriving DecidableEq, Repr

/-- `FuzzTask.is_ready`: `status == PENDING and not self.dependencies`. -/
def FuzzTask.is_ready (t : FuzzTask) : Bool :=
  t.status = TaskStatus.PENDING ∧ t.dependencies = []

/-- `FuzzTask.can_run_with_resources`: each set requirement must be at most
the corresponding availability; an unset requirement never blocks. -/
def FuzzTask.can_run_with_resources (t : FuzzTask)
    (available_memory_mb : ℚ) (available_cores : Int) : Bool :=
  (match t.memory_limit_mb with
   | none => true
   | some m => available_memory_mb ≥ (m : ℚ)) &&
  (match t.cpu_cores with
   | none => true
   | some c => available_cores ≥ c)

/-- `FuzzTask.update_status`: sets the new status (the `datetime.now()`
stamping of `started_at`/`completed_at` is not modelled). -/
def FuzzTask.update_status (t : FuzzTask) (new_status : TaskStatus) : FuzzTask :=
  { t with status := new_status }

/-! ## `monitoring/constraints.py` -/

/-- The `current_usage` dict handed to `can_start_task`: the two keys the
built-in constraints read (`memory_mb`, `cpu_percent`), with the code's
`.get(key, 0)` defaults applied. -/
structure Usage where
  memory_mb : ℚ := 0
  cpu_percent : ℚ := 0
deriving DecidableEq, Repr

/-- The built-in constraint classes of `constraints.py`
(`MemoryConstraint`, `CPUConstraint`, `TimeConstraint`) — the only kinds
`ConstraintConfig.build_constraints` ever places in a composite.
`cpu` additionally records the host's `psutil.cpu_count()`, which the
source reads from the environment inside `can_start_task`. -/
inductive Constraint
  | memory (max_memory_mb : ℚ) (per_process_limit_mb : Option ℚ)
  | cpu (max_cpu_percent : ℚ) (per_process_limit_percent : Option ℚ) (cpu_count : ℚ)
  | time (max_runtime_seconds : Int)
deriving DecidableEq, Repr

/-- `required_memory = task.memory_limit_mb or 512`: Python's `or` falls
back to 512 both when the field is `None` and when it is `0` (falsy). -/
def requiredMemory (t : FuzzTask) : ℚ :=
  match t.memory_limit_mb with
  | none => 512
  | some v => if v = 0 then 512 else (v : ℚ)

/-- `required_cores = task.cpu_cores or 1`: same Python-falsy fallback. -/
def requiredCores (t : FuzzTask) : ℚ :=
  match t.cpu_cores with
  | none => 1
  | some v => if v = 0 then 1 else (v : ℚ)

/-- `can_start_task` of each built-in constraint class:
memory admits iff current memory plus the task's reservation fits under
the cap; CPU admits iff current cpu% plus `required_cores · (100/cores)`
fits under the cap; time constraints never block starting. -/
def Constraint.can_start_task (c : Constraint) (task : FuzzTask) (usage : Usage) : Bool :=
  match c with
  | .memory max_memory_mb _ =>
      usage.memory_mb + requiredMemory task ≤ max_memory_mb
  | .cpu max_cpu_percent _ cpu_count =>
      usage.cpu_percent + requiredCores task * (100 / cpu_count) ≤ max_cpu_percent
  | .time _ => true

/-- `CompositeConstraint.can_start_task`: `all(c.can_start_task(...))`. -/
def compositeCanStartTask (cs : List Constraint) (task : FuzzTask) (usage : Usage) : Bool :=
  cs.all (fun c => c.can_start_task task usage)

/-! ## `core/process.py` -/

/-- `process.py` `ProcessState`: handle lifecycle states. -/
inductive ProcessState
  | CREATED
  | RUNNING
  | PAUSED
  | TERMINATED
  | FAILED
deriving DecidableEq, Repr

/-- `process.py` `FuzzProcess`, restricted to the fields the verified
operations read: the owned task, the handle state and the recorded exit
code.  Output capture, psutil handles and the metric ring are not
modelled. -/
structure FuzzProcess where
  task : FuzzTask
  state : ProcessState := ProcessState.CREATED
  exit_code : Option Int := none
deriving DecidableEq, Repr

/-- `FuzzProcess.pause`: `SIGSTOP` a RUNNING handle; a no-op in any other
state (and on a psutil error, a path not modelled — suspension is assumed
to succeed). -/
def FuzzProcess.pause (p : FuzzProcess) : FuzzProcess :=
  if p.state = ProcessState.RUNNING then { p with state := ProcessState.PAUSED } else p

/-- `FuzzProcess.resume`: `SIGCONT` a PAUSED handle; a no-op otherwise. -/
def FuzzProcess.resume (p : FuzzProcess) : FuzzProcess :=
  if p.state = ProcessState.PAUSED then { p with state := ProcessState.RUNNING } else p

/-- `FuzzProcess.terminate`: a no-op unless the handle is RUNNING or
PAUSED; otherwise SIGTERM (then SIGKILL on timeout) is sent, the exit
status the OS reports is recorded in `exit_code`, and the handle moves to
TERMINATED.  `os_exit` is the status `psutil.wait` returns (negative for
a signal death, as for the supervisor's own SIGTERM/SIGKILL). -/
def FuzzProcess.terminate (p : FuzzProcess) (os_exit : Int) : FuzzProcess :=
  if p.state = ProcessState.RUNNING ∨ p.state = ProcessState.PAUSED then
    { p with exit_code := some os_exit, state := ProcessState.TERMINATED }
  else p

/-! ## `core/manager.py` -/

/-- `manager.py` `ProcessManager`: `max_processes` and the
`Dict[UUID, FuzzProcess]` map, as an association list keyed by task id.
(`active_pids` and the aggregate resource gauges are not read by the
verified operations.) -/
structure ProcessManager where
  max_processes : Nat := 10
  processes : List (Nat × FuzzProcess) := []
deriving DecidableEq, Repr

/-- Association-list update mirroring `self.processes[task.id] = process`
followed by reads of `self.processes.values()`. -/
def assocSet (l : List (Nat × FuzzProcess)) (k : Nat) (v : FuzzProcess) :
    List (Nat × FuzzProcess) :=
  if l.any (fun p => p.1 = k) then
    l.map (fun p => if p.1 = k then (k, v) else p)
  else
    l ++ [(k, v)]

/-- `ProcessManager.get_running_processes`: the handles whose state is
RUNNING (PAUSED handles are not included). -/
def ProcessManager.get_running_processes (pm : ProcessManager) : List FuzzProcess :=
  (pm.processes.map Prod.snd).filter (fun p => p.state = ProcessState.RUNNING)

/-- `ProcessManager.get_paused_processes`: the handles in state PAUSED. -/
def ProcessManager.get_paused_processes (pm : ProcessManager) : List FuzzProcess :=
  (pm.processes.map Prod.snd).filter (fun p => p.state = ProcessState.PAUSED)

/-- `ProcessManager.start_task`: refuse when
`len(get_running_processes()) >= max_processes`; otherwise create a
handle and spawn.  `spawn_ok` stands for the OS spawn either succeeding
or raising; on failure the task is marked FAILED and nothing is
registered. -/
def ProcessManager.start_task (pm : ProcessManager) (task : FuzzTask)
    (spawn_ok : Bool) : ProcessManager × Bool :=
  if pm.get_running_processes.length ≥ pm.max_processes then
    (pm, false)
  else if spawn_ok then
    let started : FuzzProcess :=
      { task := task.update_status TaskStatus.RUNNING
        state := ProcessState.RUNNING
        exit_code := none }
    ({ pm with processes := assocSet pm.processes task.id started }, true)
  else
    (pm, false)

/-- `ProcessManager.pause_task`: if a handle exists for the task id,
pause it and mark the task PAUSED; report whether a handle was found. -/
def ProcessManager.pause_task (pm : ProcessManager) (task_id : Nat) :
    ProcessManager × Bool :=
  if pm.processes.any (fun p => p.1 = task_id) then
    ({ pm with
        processes := pm.processes.map (fun p =>
          if p.1 = task_id then
            (p.1, { p.2.pause with task := p.2.task.update_status TaskStatus.PAUSED })
          else p) }, true)
  else (pm, false)

/-- `ProcessManager.resume_task`: if a handle exists for the task id,
resume it and mark the task RUNNING; report whether a handle was found. -/
def ProcessManager.resume_task (pm : ProcessManager) (task_id : Nat) :
    ProcessManager × Bool :=
  if pm.processes.any (fun p => p.1 = task_id) then
    ({ pm with
        processes := pm.processes.map (fun p =>
          if p.1 = task_id then
            (p.1, { p.2.resume with task := p.2.task.update_status TaskStatus.RUNNING })
          else p) }, true)
  else (pm, false)

/-- `ProcessManager.stop_task`: if a handle exists, terminate it (the OS
reports `os_exit`), then classify the task COMPLETED when the recorded
exit code is 0 and FAILED otherwise. -/
def ProcessManager.stop_task (pm : ProcessManager) (task_id : Nat)
    (os_exit : Int) : ProcessManager × Bool :=
  if pm.processes.any (fun p => p.1 = task_id) then
    ({ pm with
        processes := pm.processes.map (fun p =>
          if p.1 = task_id then
            let stopped := p.2.terminate os_exit
            let status :=
              if stopped.exit_code = some 0 then TaskStatus.COMPLETED
              else TaskStatus.FAILED
            (p.1, { stopped with task := stopped.task.update_status status })
          else p) }, true)
  else (pm, false)

/-! ## `core/scheduler.py` -/

/-- What `Scheduler._update_task_states` observes about a running task's
process through `get_process_by_task`: whether a handle was found, whether
it `is_alive`, and its recorded `exit_code`. -/
structure ProcView where
  is_alive : Bool
  exit_code : Option Int
deriving DecidableEq, Repr

/-- `scheduler.py` `Scheduler` task bookkeeping: the pending list, the
running map, the completed list and the tracked outstanding-dependency
sets (`Dict[UUID, Set[UUID]]`, as an association list). -/
structure Scheduler where
  pending_tasks : List FuzzTask := []
  running_tasks : List (Nat × FuzzTask) := []
  completed_tasks : List FuzzTask := []
  task_dependencies : List (Nat × List Nat) := []
deriving DecidableEq, Repr

/-- `Scheduler.submit_task`: record the declared dependencies (when any)
in `task_dependencies` and append the task to the pending list. -/
def Scheduler.submit_task (s : Scheduler) (task : FuzzTask) : Scheduler :=
  { s with
    task_dependencies :=
      if task.dependencies = [] then s.task_dependencies
      else s.task_dependencies ++ [(task.id, task.dependencies)]
    pending_tasks := s.pending_tasks ++ [task] }

/-- One step of the dependency-update loop at the end of
`_update_task_states`: remove `task_id` from every tracked dependency
set, deleting a set that becomes empty. -/
def removeSatisfiedDep (deps : List (Nat × List Nat)) (task_id : Nat) :
    List (Nat × List Nat) :=
  deps.filterMap (fun p =>
    if task_id ∈ p.2 then
      let remaining := p.2.filter (fun d => d ≠ task_id)
      if remaining = [] then none else some (p.1, remaining)
    else some p)

/-- `_update_task_states` classification of one reaped running task:
COMPLETED iff a handle exists with recorded exit code 0, FAILED in every
other case (missing handle, no exit code, nonzero or signal exit) —
there is no exemption for supervisor-initiated stops. -/
def classifyReaped (t : FuzzTask) (view : Option ProcView) : FuzzTask :=
  match view with
  | some v =>
      if v.exit_code = some 0 then t.update_status TaskStatus.COMPLETED
      else t.update_status TaskStatus.FAILED
  | none => t.update_status TaskStatus.FAILED

/-- `Scheduler._update_task_states`: every running task whose process is
missing or no longer alive is classified (COMPLETED on exit 0, FAILED
otherwise), moved to the completed list, dropped from the running map,
and its id removed from every tracked dependency set.  `proc` is the
`get_process_by_task` view of the process manager. -/
def Scheduler.update_task_states (s : Scheduler) (proc : Nat → Option ProcView) :
    Scheduler :=
  let isDone : Nat × FuzzTask → Bool := fun p =>
    match proc p.1 with
    | none => true
    | some v => !v.is_alive
  let reaped := s.running_tasks.filter isDone
  let reapedIds := reaped.map Prod.fst
  { s with
    running_tasks := s.running_tasks.filter (fun p => !isDone p)
    completed_tasks :=
      s.completed_tasks ++ reaped.map (fun p => classifyReaped p.2 (proc p.1))
    task_dependencies := reapedIds.foldl removeSatisfiedDep s.task_dependencies }

/-- `Scheduler._get_ready_tasks`: the pending tasks whose tracked
outstanding-dependency set is empty (or absent) *and* whose `is_ready()`
holds — the latter re-checks the task's own never-mutated declared
dependency list. -/
def Scheduler.get_ready_tasks (s : Scheduler) : List FuzzTask :=
  s.pending_tasks.filter (fun t =>
    (match s.task_dependencies.find? (fun p => p.1 = t.id) with
     | none => true
     | some p => p.2.isEmpty) && t.is_ready)

/-- The sort order of `PrioritySchedulingStrategy.select_next_task`:
the key `(-t.priority.value, t.created_at)` compared lexicographically,
as Python compares tuples — i.e. descending priority value, ties broken
by ascending creation time. -/
def taskKeyLE (a b : FuzzTask) : Bool :=
  (-(a.priority.value) < -(b.priority.value)) ||
  ((-(a.priority.value) == -(b.priority.value)) && a.created_at ≤ b.created_at)

/-- `PrioritySchedulingStrategy.select_next_task`: stably sort the
pending list by descending priority value then ascending creation time,
and return the first task that `can_run_with_resources`; `none` when no
candidate fits.  (The running list is not consulted.) -/
def prioritySelectNextTask (pending_tasks : List FuzzTask)
    (available_memory_mb : ℚ) (available_cores : Int) : Option FuzzTask :=
  let candidates := pending_tasks.mergeSort taskKeyLE
  candidates.find? (fun t =>
    t.can_run_with_resources available_memory_mb available_cores)

/-! ## `monitoring/metrics.py` -/

/-- `metrics.py` `FuzzingMetrics`, with the numeric fields the verified
operations read and the dataclass defaults of the source. -/
structure FuzzingMetrics where
  coverage_percent : ℚ := 0
  total_executions : Int := 0
  executions_per_second : ℚ := 0
  unique_crashes : Int := 0
  unique_hangs : Int := 0
  total_paths : Int := 0
  new_paths_last_minute : Int := 0
  corpus_size : Int := 0
  corpus_favored : Int := 0
  stability_percent : ℚ := 100
deriving DecidableEq, Repr

/-- The numeric content of an AFL `fuzzer_stats` file after the
`key : value` lines have been split and the values parsed, exactly the
nine keys `AFLMetricProvider.collect_metrics` reads (the text-level
splitting and `int()`/`float()` conversions are not re-modelled). -/
structure AFLStats where
  bitmap_cvg : ℚ := 0
  execs_done : Int := 0
  execs_per_sec : ℚ := 0
  unique_crashes : Int := 0
  unique_hangs : Int := 0
  paths_total : Int := 0
  corpus_count : Int := 0
  corpus_favored : Int := 0
  stability : ℚ := 100
deriving DecidableEq, Repr

/-- `metrics.py` `AFLMetricProvider` mutable state: the `paths_total`
seen by the previous collection and the time stamped at the previous
collection. -/
structure AFLMetricProvider where
  last_paths : Int := 0
  last_path_time : ℚ
deriving DecidableEq, Repr

/-- `AFLMetricProvider.collect_metrics` on an existing, parseable stats
file read as `stats`, at wall-clock time `now`: build the metrics record,
derive `new_paths_last_minute` from the previous collection, then set
`last_paths` to the parsed `paths_total` and — unconditionally, whether or
not `paths_total` increased — set `last_path_time := now`.  Returns the
updated provider state and the metrics. -/
def AFLMetricProvider.collect_metrics (p : AFLMetricProvider) (stats : AFLStats)
    (now : ℚ) : AFLMetricProvider × FuzzingMetrics :=
  let base : FuzzingMetrics :=
    { coverage_percent := stats.bitmap_cvg
      total_executions := stats.execs_done
      executions_per_second := stats.execs_per_sec
      unique_crashes := stats.unique_crashes
      unique_hangs := stats.unique_hangs
      total_paths := stats.paths_total
      corpus_size := stats.corpus_count
      corpus_favored := stats.corpus_favored
      stability_percent := stats.stability }
  let metrics :=
    if p.last_paths > 0 then
      let new_paths := base.total_paths - p.last_paths
      let time_diff := now - p.last_path_time
      if time_diff > 0 then
        -- Python's int() truncates toward zero
        let v := ((new_paths * 60 : Int) : ℚ) / time_diff
        { base with new_paths_last_minute := if v ≥ 0 then ⌊v⌋ else ⌈v⌉ }
      else base
    else base
  ({ last_paths := metrics.total_paths, last_path_time := now }, metrics)

/-- `AFLMetricProvider.is_stalled`: the seconds elapsed since
`last_path_time` exceed the threshold. -/
def AFLMetricProvider.is_stalled (p : AFLMetricProvider) (now : ℚ)
    (threshold_seconds : ℚ) : Bool :=
  now - p.last_path_time > threshold_seconds

/-- `MetricsCollector.get_task_efficiency` on one task's metrics history:
with fewer than 2 samples, 50; otherwise over the last at most 10 samples,
the weighted sum of the execution-speed, path-rate, crash and stability
scores, clamped to [0, 100]. -/
def get_task_efficiency (history : List FuzzingMetrics) : ℚ :=
  if history.length < 2 then 50
  else
    let recent := history.drop (history.length - 10)
    let lastS := recent.getLastD {}
    let firstS := recent.headD {}
    let exec_score := min 100 (lastS.executions_per_second / 1000 * 50)
    let path_score :=
      if recent.length > 1 then
        let path_rate := ((lastS.total_paths - firstS.total_paths : Int) : ℚ) / recent.length
        min 100 (path_rate * 10)
      else 0
    let crash_score := min 100 ((lastS.unique_crashes : ℚ) * 20)
    let stability_score := lastS.stability_percent
    let efficiency :=
      exec_score * 0.2 + path_score * 0.3 + crash_score * 0.4 + stability_score * 0.1
    min 100 (max 0 efficiency)

/-- The efficiency score exactly as §4.5 of the spec words it (a second
definition for the refinement claim C8, written from the spec, to be
compared with `get_task_efficiency` from the source):
`0.2·min(100, execPerSec/1000·50) + 0.3·min(100, pathRate·10)
 + 0.4·min(100, crashes·20) + 0.1·stability%` over the last ≤10 samples,
`pathRate = (paths_last − paths_first)/samples`, clamped to [0,100];
fewer than 2 samples → 50. -/
def efficiencySpec (history : List FuzzingMetrics) : ℚ :=
  if history.length < 2 then 50
  else
    let recent := history.drop (history.length - 10)
    let samples : ℚ := recent.length
    let pathRate :=
      (((recent.getLastD {}).total_paths - (recent.headD {}).total_paths : Int) : ℚ) / samples
    let weighted :=
      0.2 * min 100 ((recent.getLastD {}).executions_per_second / 1000 * 50)
      + 0.3 * min 100 (pathRate * 10)
      + 0.4 * min 100 (((recent.getLastD {}).unique_crashes : ℚ) * 20)
      + 0.1 * (recent.getLastD {}).stability_percent
    min 100 (max 0 weighted)

/-! ## `monitoring/resources.py` -/

/-- `resources.py` `ResourceUsage`, restricted to the fields
`predict_memory_exhaustion` reads. -/
structure ResourceUsage where
  timestamp : ℚ
  memory_total_mb : ℚ
  memory_used_mb : ℚ
deriving DecidableEq, Repr

/-- `ResourceMonitor.predict_memory_exhaustion` over the sample history
(oldest first): requires at least 10 recorded samples; least-squares
slope of used-MB versus time over the last 30 samples; `none` when the
slope is ≤ 0 (or the x-variance is 0); otherwise
`(memory_total_mb − memory_used_mb) / slope` at the newest sample, but
only when that value is strictly between 0 and 3600 seconds. -/
def predict_memory_exhaustion (history : List ResourceUsage) : Option ℚ :=
  if history.length < 10 then none
  else
    let recent := history.drop (history.length - 30)
    if recent.length < 2 then none
    else
      match recent.head? with
      | none => none
      | some r0 =>
        let x_vals := recent.map (fun u => u.timestamp - r0.timestamp)
        let y_vals := recent.map (fun u => u.memory_used_mb)
        let n : ℚ := recent.length
        let x_mean := x_vals.sum / n
        let y_mean := y_vals.sum / n
        let num := ((x_vals.zip y_vals).map (fun q => (q.1 - x_mean) * (q.2 - y_mean))).sum
        let den := (x_vals.map (fun x => (x - x_mean) ^ 2)).sum
        if den = 0 then none
        else
          let slope := num / den
          if slope ≤ 0 then none
          else
            match recent.getLast? with
            | none => none
            | some current =>
              let remaining_mb := current.memory_total_mb - current.memory_used_mb
              let secs := remaining_mb / slope
              if 0 < secs ∧ secs < 3600 then some secs else none

/-- The prediction exactly as claim C6 words it (a second definition for
the refinement comparison, written from the spec): compute the
linear-regression slope of used-MB versus time over the recent window;
no prediction when the slope is ≤ 0; otherwise
`(totalMB − usedMB) / slope` exactly when that value is at most 3600. -/
def predictMemoryExhaustionClaim (history : List ResourceUsage) : Option ℚ :=
  match history.head?, history.getLast? with
  | some r0, some current =>
      if history.length < 2 then none
      else
        let x_vals := history.map (fun u => u.timestamp - r0.timestamp)
        let y_vals := history.map (fun u => u.memory_used_mb)
        let n : ℚ := history.length
        let x_mean := x_vals.sum / n
        let y_mean := y_vals.sum / n
        let num := ((x_vals.zip y_vals).map (fun q => (q.1 - x_mean) * (q.2 - y_mean))).sum
        let den := (x_vals.map (fun x => (x - x_mean) ^ 2)).sum
        if den = 0 then none
        else
          let slope := num / den
          if slope ≤ 0 then none
          else
            let secs := (current.memory_total_mb - current.memory_used_mb) / slope
            if secs ≤ 3600 then some secs else none
  | _, _ => none

/-! ## `orchestrator.py` -/

/-- `orchestrator.py` `Orchestrator`, restricted to the component the
verified operations touch. -/
structure Orchestrator where
  process_manager : ProcessManager
deriving DecidableEq, Repr

/-- `Orchestrator.pause_all` iterates over
`self.process_manager.running_tasks.keys()` — but `ProcessManager`
(core/manager.py) defines no attribute `running_tasks` (the running-task
map lives on the `Scheduler`), so the very first attribute access raises
`AttributeError` and no handle is paused.  The raised exception is
modelled as `Except.error`. -/
def Orchestrator.pause_all (_o : Orchestrator) : Except String (Orchestrator × Nat) :=
  Except.error "AttributeError: ProcessManager object has no attribute running_tasks"

/-- The two-sample history of the C6 counterexample: used MB rises
linearly from 100 to 200 over 10 s with 300 MB total. -/
def twoSamples : List ResourceUsage :=
  [{ timestamp := 0, memory_total_mb := 300, memory_used_mb := 100 },
   { timestamp := 10, memory_total_mb := 300, memory_used_mb := 200 }]

/-- Eleven samples (satisfying the ≥ 10 precondition) in which used MB
rises linearly from 100 to 200 over 10 s with 300 MB total. -/
def elevenSamples : List ResourceUsage :=
  [{ timestamp := 0, memory_total_mb := 300, memory_used_mb := 100 },
   { timestamp := 1, memory_total_mb := 300, memory_used_mb := 110 },
   { timestamp := 2, memory_total_mb := 300, memory_used_mb := 120 },
   { timestamp := 3, memory_total_mb := 300, memory_used_mb := 130 },
   { timestamp := 4, memory_total_mb := 300, memory_used_mb := 140 },
   { timestamp := 5, memory_total_mb := 300, memory_used_mb := 150 },
   { timestamp := 6, memory_total_mb := 300, memory_used_mb := 160 },
   { timestamp := 7, memory_total_mb := 300, memory_used_mb := 170 },
   { timestamp := 8, memory_total_mb := 300, memory_used_mb := 180 },
   { timestamp := 9, memory_total_mb := 300, memory_used_mb := 190 },
   { timestamp := 10, memory_total_mb := 300, memory_used_mb := 200 }]

/-! ## Theorems -/

/-- C9: admission is monotone in available headroom — for usage snapshots
`U' ≤ U` componentwise (memory_mb and cpu_percent), if the composite
constraint admits the task at `U` it also admits it at `U'`; and the
composite admits exactly when every member constraint admits. -/
theorem C9_admission_monotone (cs : List Constraint) (task : FuzzTask)
    (U U' : Usage) (hmem : U'.memory_mb ≤ U.memory_mb)
    (hcpu : U'.cpu_percent ≤ U.cpu_percent) :
    (compositeCanStartTask cs task U = true →
      compositeCanStartTask cs task U' = true) ∧
    (compositeCanStartTask cs task U = true ↔
      ∀ c ∈ cs, c.can_start_task task U = true) := by
  constructor
  · intro h
    simp only [compositeCanStartTask, List.all_eq_true] at h ⊢
    intro c hc
    have hcU := h c hc
    cases c with
    | memory m p =>
        simp only [Constraint.can_start_task, decide_eq_true_eq] at hcU ⊢
        linarith
    | cpu m p n =>
        simp only [Constraint.can_start_task, decide_eq_true_eq] at hcU ⊢
        linarith
    | time m =>
        simp [Constraint.can_start_task]
  · simp [compositeCanStartTask, List.all_eq_true]

/-- Witness for C9 at a concrete composite, task and usage pair. -/
theorem C9_admission_monotone_witness :
    compositeCanStartTask
      [Constraint.memory 2048 none, Constraint.cpu 400 none 4, Constraint.time 60]
      { id := 7, memory_limit_mb := some 1024, cpu_cores := some 2 }
      { memory_mb := 512, cpu_percent := 100 } = true :=
  (C9_admission_monotone
      [Constraint.memory 2048 none, Constraint.cpu 400 none 4, Constraint.time 60]
      { id := 7, memory_limit_mb := some 1024, cpu_cores := some 2 }
      { memory_mb := 1024, cpu_percent := 200 }
      { memory_mb := 512, cpu_percent := 100 }
      (by norm_num) (by norm_num)).1
    (by norm_num [compositeCanStartTask, Constraint.can_start_task,
          requiredMemory, requiredCores])

/-- C10 as stated is false: a task with `memory_limit_mb = 0` (a set
value) is charged the 512 MB default, because Python's
`task.memory_limit_mb or 512` treats 0 as falsy — at usage 300/cap 512
the claim predicts admission (300 + 0 ≤ 512) but the code refuses
(300 + 512 > 512). -/
theorem C10_counterexample :
    (Constraint.memory 512 none).can_start_task
      { id := 0, memory_limit_mb := some 0 } { memory_mb := 300 } = false ∧
    (300 : ℚ) + ((0 : Int) : ℚ) ≤ 512 := by
  constructor
  · norm_num [Constraint.can_start_task, requiredMemory]
  · norm_num

/-- C10 (amended): memory admission holds iff current memory plus the
effective reservation fits under the cap, where the reservation is the
declared `memory_limit_mb` when that is set and nonzero, and 512 MB when
it is unset *or set to 0* (Python-falsy). -/
theorem C10_memory_admission (max : ℚ) (per : Option ℚ) (task : FuzzTask) (usage : Usage) :
    ((task.memory_limit_mb = none ∨ task.memory_limit_mb = some 0) →
      ((Constraint.memory max per).can_start_task task usage = true ↔
        usage.memory_mb + 512 ≤ max)) ∧
    (∀ v : Int, task.memory_limit_mb = some v → v ≠ 0 →
      ((Constraint.memory max per).can_start_task task usage = true ↔
        usage.memory_mb + (v : ℚ) ≤ max)) := by
  constructor
  · rintro (h | h) <;>
      simp [Constraint.can_start_task, requiredMemory, h]
  · intro v hv hne
    simp [Constraint.can_start_task, requiredMemory, hv, hne]

/-- Witness for C10 (amended) at a concrete task with no declared limit. -/
theorem C10_memory_admission_witness :
    (Constraint.memory 1024 none).can_start_task { id := 3 } { memory_mb := 100 } = true ↔
      (100 : ℚ) + 512 ≤ 1024 :=
  (C10_memory_admission 1024 none { id := 3 } { memory_mb := 100 }).1 (Or.inl rfl)

/-- C1 is a code bug: a task submitted with a nonempty declared
dependency list never appears in `_get_ready_tasks`, in any scheduler
state — even after every predecessor reached a terminal status and the
scheduler's own dependency tracking removed the satisfied entries —
because `_get_ready_tasks` also requires `task.is_ready()`, which
re-checks the task's never-mutated declared `dependencies` list. -/
theorem C1_declared_deps_never_ready (s : Scheduler) (t : FuzzTask)
    (h : t.dependencies ≠ []) : t ∉ s.get_ready_tasks := by
  intro hmem
  have h2 := (List.mem_filter.mp hmem).2
  rw [Bool.and_eq_true] at h2
  have h3 := h2.2
  simp only [FuzzTask.is_ready, decide_eq_true_eq] at h3
  exact h h3.2

/-- Witness for C1: task 1 depends on task 0; task 0 has exited with
code 0 and been reaped, which empties the tracked dependency set — yet
task 1 is still not in the ready set. -/
theorem C1_declared_deps_never_ready_witness :
    ({ id := 1, dependencies := [0] } : FuzzTask) ∉
      Scheduler.get_ready_tasks
        (Scheduler.update_task_states
          { pending_tasks := [{ id := 1, dependencies := [0] }]
            running_tasks := [(0, { id := 0, status := TaskStatus.RUNNING })]
            completed_tasks := []
            task_dependencies := [(1, [0])] }
          (fun _ => some { is_alive := false, exit_code := some 0 })) :=
  C1_declared_deps_never_ready _ _ (by simp)

/-- C2 as stated is false: `start_task` counts only RUNNING handles
against `max_processes`, so from the empty manager with
`max_processes = 1` one can start a task, pause it, and have a second
spawn admitted — leaving 2 handles in RUNNING∪PAUSED, above the claimed
inclusive bound of 1. -/
theorem C2_counterexample :
    let pm0 : ProcessManager := { max_processes := 1 }
    let afterStart0 := (pm0.start_task { id := 0 } true).1
    let afterPause := (afterStart0.pause_task 0).1
    let res := afterPause.start_task { id := 1 } true
    res.2 = true ∧
    res.1.get_running_processes.length + res.1.get_paused_processes.length = 2 ∧
    res.1.max_processes = 1 := by
  decide

/-- C2 (amended): the admission guard of `start_task` bounds only the
RUNNING handles — a spawn is admitted only while the RUNNING count is
strictly below `max_processes`, and whenever the RUNNING count has
reached `max_processes` the call refuses and leaves the manager
unchanged.  PAUSED handles are not counted, so RUNNING∪PAUSED can
legitimately exceed `max_processes`. -/
theorem C2_admission_bounds_running (pm : ProcessManager) (task : FuzzTask)
    (ok : Bool) :
    ((pm.start_task task ok).2 = true →
      pm.get_running_processes.length < pm.max_processes) ∧
    (pm.get_running_processes.length ≥ pm.max_processes →
      pm.start_task task ok = (pm, false)) := by
  constructor
  · intro h
    by_contra hge
    push_neg at hge
    rw [ProcessManager.start_task, if_pos hge] at h
    exact absurd h (by simp)
  · intro hge
    rw [ProcessManager.start_task, if_pos hge]

/-- Witness for C2 (amended): a manager at its RUNNING capacity refuses
a new spawn. -/
theorem C2_admission_bounds_running_witness :
    ProcessManager.start_task
      { max_processes := 1,
        processes := [(0, { task := { id := 0 }, state := ProcessState.RUNNING })] }
      { id := 1 } true =
      ({ max_processes := 1,
         processes := [(0, { task := { id := 0 }, state := ProcessState.RUNNING })] },
       false) :=
  (C2_admission_bounds_running _ _ _).2 (by decide)

/-- C3 as stated is false: a supervisor-initiated `stop_task` that ends
the process with a signal exit (here -15, SIGTERM sent by the
supervisor itself) is still classified FAILED — the code classifies by
exit code alone and keeps no record of who sent the signal. -/
theorem C3_counterexample :
    ((ProcessManager.stop_task
        { max_processes := 10,
          processes := [(5, { task := { id := 5, status := TaskStatus.RUNNING },
                              state := ProcessState.RUNNING })] }
        5 (-15)).1.processes.map (fun p => p.2.task.status)) = [TaskStatus.FAILED] := by
  decide

/-- C3 (amended): for a live (RUNNING or PAUSED) handle, `stop_task`
classifies the task purely by the recorded exit code — COMPLETED exactly
when it is 0 and FAILED for every other exit, supervisor-initiated or
not; and the scheduler's reap classification does the same. -/
theorem C3_stop_classifies_by_exit_code (t : FuzzTask) (st : ProcessState)
    (e : Int) (task_id maxp : Nat)
    (h : st = ProcessState.RUNNING ∨ st = ProcessState.PAUSED) :
    ((ProcessManager.stop_task
        { max_processes := maxp,
          processes := [(task_id, { task := t, state := st, exit_code := none })] }
        task_id e).1.processes.map (fun p => p.2.task.status)) =
      [if e = 0 then TaskStatus.COMPLETED else TaskStatus.FAILED] ∧
    (∀ (u : FuzzTask) (alive : Bool),
      (classifyReaped u (some { is_alive := alive, exit_code := some e })).status =
        (if e = 0 then TaskStatus.COMPLETED else TaskStatus.FAILED)) := by
  constructor
  · rcases h with h | h <;> subst h <;> by_cases he : e = 0 <;>
      simp [ProcessManager.stop_task, FuzzProcess.terminate,
        FuzzTask.update_status, he]
  · intro u alive
    by_cases he : e = 0 <;>
      simp [classifyReaped, FuzzTask.update_status, he]

/-- Witness for C3 (amended): stopping a PAUSED handle that exits 0
marks the task COMPLETED. -/
theorem C3_stop_classifies_by_exit_code_witness :
    ((ProcessManager.stop_task
        { max_processes := 10,
          processes := [(9, { task := { id := 9 }, state := ProcessState.PAUSED,
                              exit_code := none })] }
        9 0).1.processes.map (fun p => p.2.task.status)) =
      [if (0 : Int) = 0 then TaskStatus.COMPLETED else TaskStatus.FAILED] :=
  (C3_stop_classifies_by_exit_code { id := 9 } ProcessState.PAUSED 0 9 10 (Or.inr rfl)).1

/-- C4 is a code bug: `collect_metrics` stamps `last_path_time` with the
current time on *every* successful collection, whether or not
`paths_total` increased, so immediately after any collection
`is_stalled(threshold)` is false for every nonnegative threshold — in
particular after a sequence of collections spanning more than the
threshold in which `paths_total` never increased, where the claim (and
the provider's own docstring, "no new paths found recently") requires
true. -/
theorem C4_collect_resets_stall_clock (p : AFLMetricProvider) (stats : AFLStats)
    (now threshold : ℚ) (h : 0 ≤ threshold) :
    ((p.collect_metrics stats now).1.is_stalled now threshold) = false := by
  simp only [AFLMetricProvider.collect_metrics, AFLMetricProvider.is_stalled,
    sub_self, decide_eq_false_iff_not, not_lt]
  exact h

/-- Witness for C4: paths_total stayed at 100 from t = 0 to t = 4000,
spanning more than the 3600 s threshold, yet right after the collection
at t = 4000 the provider reports no stall. -/
theorem C4_collect_resets_stall_clock_witness :
    ((AFLMetricProvider.collect_metrics { last_paths := 100, last_path_time := 0 }
        { paths_total := 100 } 4000).1.is_stalled 4000 3600) = false :=
  C4_collect_resets_stall_clock _ _ _ _ (by norm_num)

/-- C5 is a code bug: `Orchestrator.pause_all` reads
`self.process_manager.running_tasks`, an attribute `ProcessManager` does
not define, so in every orchestrator state the call raises
`AttributeError` before pausing a single handle — the
pauseAll-then-resumeAll round trip never happens. -/
theorem C5_pause_all_attribute_error (o : Orchestrator) :
    o.pause_all =
      Except.error
        "AttributeError: ProcessManager object has no attribute running_tasks" :=
  rfl

/-- C6 as stated is false: on a history whose regression slope is 10 > 0
and whose predicted time 10 s is finite and at most 3600, the code still
returns no prediction, because it additionally requires at least 10
recorded samples (`len(self.history) < 10 → None`) — a precondition the
claim omits. -/
theorem C6_counterexample :
    predict_memory_exhaustion twoSamples = none ∧
    predictMemoryExhaustionClaim twoSamples = some 10 := by
  constructor
  · rfl
  · norm_num [predictMemoryExhaustionClaim, twoSamples]

/-- C6 (amended): with at least 10 recorded samples the prediction is
computed over the last 30 by least-squares slope, and a value is
returned exactly when it lies strictly between 0 and 3600 s; on the
spec's concrete scenario (used MB rising linearly 100 → 200 over 10 s,
total 300), fed as 11 samples, the prediction is exactly 10 s. -/
theorem C6_memory_exhaustion_prediction :
    predict_memory_exhaustion elevenSamples = some 10 ∧
    ∀ (h : List ResourceUsage) (v : ℚ),
      predict_memory_exhaustion h = some v →
      10 ≤ h.length ∧ 0 < v ∧ v < 3600 := by
  constructor
  · norm_num [predict_memory_exhaustion, elevenSamples]
  · intro h v heq
    simp only [predict_memory_exhaustion] at heq
    split at heq
    · exact absurd heq (by simp)
    · next hlen =>
      refine ⟨by omega, ?_⟩
      split at heq
      · exact absurd heq (by simp)
      · split at heq
        · exact absurd heq (by simp)
        · split at heq
          · exact absurd heq (by simp)
          · split at heq
            · exact absurd heq (by simp)
            · split at heq
              · exact absurd heq (by simp)
              · split at heq
                · next hrange =>
                  rw [Option.some_inj] at heq
                  exact heq ▸ hrange
                · exact absurd heq (by simp)

/-- Witness for C6 (amended), instantiated at the 11-sample scenario. -/
theorem C6_memory_exhaustion_prediction_witness :
    10 ≤ elevenSamples.length ∧ 0 < (10 : ℚ) ∧ (10 : ℚ) < 3600 :=
  C6_memory_exhaustion_prediction.2 elevenSamples 10
    C6_memory_exhaustion_prediction.1

/-- The sort order used by the priority strategy is reflexive. -/
theorem taskKeyLE_refl (a : FuzzTask) : taskKeyLE a a = true := by
  simp [taskKeyLE]

/-- The sort order used by the priority strategy is total. -/
theorem taskKeyLE_total (a b : FuzzTask) : (taskKeyLE a b || taskKeyLE b a) = true := by
  simp only [taskKeyLE, Bool.or_eq_true, Bool.and_eq_true, decide_eq_true_eq,
    beq_iff_eq]
  rcases lt_trichotomy (-(a.priority.value)) (-(b.priority.value)) with h | h | h
  · exact Or.inl (Or.inl h)
  · rcases le_total a.created_at b.created_at with hc | hc
    · exact Or.inl (Or.inr ⟨h, hc⟩)
    · exact Or.inr (Or.inr ⟨h.symm, hc⟩)
  · exact Or.inr (Or.inl h)

/-- The sort order used by the priority strategy is transitive. -/
theorem taskKeyLE_trans (a b c : FuzzTask) (h1 : taskKeyLE a b = true)
    (h2 : taskKeyLE b c = true) : taskKeyLE a c = true := by
  simp only [taskKeyLE, Bool.or_eq_true, Bool.and_eq_true, decide_eq_true_eq,
    beq_iff_eq] at h1 h2 ⊢
  rcases h1 with h1 | ⟨h1, h1c⟩ <;> rcases h2 with h2 | ⟨h2, h2c⟩
  · exact Or.inl (h1.trans h2)
  · exact Or.inl (h2 ▸ h1)
  · exact Or.inl (h1 ▸ h2)
  · exact Or.inr ⟨h1.trans h2, h1c.trans h2c⟩

/-- In a list sorted (pairwise) by a reflexive boolean order, the first
element found by `find?` is at most every element satisfying the
predicate. -/
theorem find?_min_of_sorted {α : Type} (le : α → α → Bool) (p : α → Bool)
    (hrefl : ∀ a, le a a = true) :
    ∀ (l : List α), l.Pairwise (fun a b => le a b = true) →
      ∀ t, l.find? p = some t → ∀ u ∈ l, p u = true → le t u = true := by
  intro l
  induction l with
  | nil => intro _ t ht; simp at ht
  | cons x xs ih =>
    intro hpw t ht u hu hpu
    rcases List.pairwise_cons.mp hpw with ⟨hx, hxs⟩
    by_cases hpx : p x = true
    · rw [List.find?_cons_of_pos _ hpx] at ht
      injection ht with ht
      subst ht
      rcases List.mem_cons.mp hu with rfl | hu'
      · exact hrefl _
      · exact hx u hu'
    · rw [List.find?_cons_of_neg _ (by simpa using hpx)] at ht
      rcases List.mem_cons.mp hu with rfl | hu'
      · exact absurd hpu hpx
      · exact ih hxs t ht u hu' hpu

/-- C7: the priority strategy's `select_next_task` returns a pending
task that fits the available resources and is least in the sort order
(descending priority value, ties by earliest creation) among all
fitting pending tasks — i.e. the first fitting task of the sorted
order — and returns `none` exactly when no pending task fits. -/
theorem C7_priority_select_first_fit (pending : List FuzzTask)
    (mem : ℚ) (cores : Int) :
    (∀ t, prioritySelectNextTask pending mem cores = some t →
      t ∈ pending ∧ t.can_run_with_resources mem cores = true ∧
      ∀ u ∈ pending, u.can_run_with_resources mem cores = true →
        taskKeyLE t u = true) ∧
    (prioritySelectNextTask pending mem cores = none →
      ∀ u ∈ pending, u.can_run_with_resources mem cores = false) := by
  constructor
  · intro t ht
    have hsorted :=
      List.sorted_mergeSort
        (fun a b c => taskKeyLE_trans a b c)
        (fun a b => taskKeyLE_total a b) pending
    simp only [prioritySelectNextTask] at ht
    refine ⟨?_, ?_, ?_⟩
    · have hmem := List.mem_of_find?_eq_some ht
      rwa [List.mem_mergeSort] at hmem
    · have hp := List.find?_some ht
      simpa using hp
    · intro u hu hfu
      exact find?_min_of_sorted taskKeyLE _ taskKeyLE_refl _ hsorted t ht u
        (List.mem_mergeSort.mpr hu) hfu
  · intro hnone u hu
    simp only [prioritySelectNextTask] at hnone
    rw [List.find?_eq_none] at hnone
    simpa using hnone u (List.mem_mergeSort.mpr hu)

/-- Witness for C7: between a LOW task and a HIGH task that both fit,
selection picks the HIGH one, which is minimal in the sort order. -/
theorem C7_priority_select_first_fit_witness :
    ({ id := 1, priority := TaskPriority.HIGH } : FuzzTask) ∈
        [({ id := 0, priority := TaskPriority.LOW } : FuzzTask),
         { id := 1, priority := TaskPriority.HIGH }] ∧
      FuzzTask.can_run_with_resources { id := 1, priority := TaskPriority.HIGH }
        1000 4 = true ∧
      ∀ u ∈ [({ id := 0, priority := TaskPriority.LOW } : FuzzTask),
             { id := 1, priority := TaskPriority.HIGH }],
        u.can_run_with_resources 1000 4 = true →
          taskKeyLE { id := 1, priority := TaskPriority.HIGH } u = true :=
  (C7_priority_select_first_fit
      [{ id := 0, priority := TaskPriority.LOW },
       { id := 1, priority := TaskPriority.HIGH }] 1000 4).1
    { id := 1, priority := TaskPriority.HIGH }
    (by simp [prioritySelectNextTask, List.mergeSort, taskKeyLE,
          TaskPriority.value, FuzzTask.can_run_with_resources])

/-- C8: the efficiency score computed by `get_task_efficiency` equals the
spec's formula `efficiencySpec` on every history. -/
theorem C8_efficiency_matches_spec (history : List FuzzingMetrics) :
    get_task_efficiency history = efficiencySpec history := by
  simp only [get_task_efficiency, efficiencySpec]
  split
  · rfl
  · next hlen =>
    rw [if_pos (by rw [List.length_drop]; omega :
        1 < (history.drop (history.length - 10)).length)]
    congr 1
    congr 1
    ring

end Fuzzflow
